import Mathlib

/-!
Shallow embedding of the CreditPathAI backend (src/backend.py) and proofs
about its preprocessing pipeline, risk mapping, prediction endpoint and
log reader.

Conventions of the embedding:
* A pandas DataFrame is modelled column-oriented: a list of
  (column-name, list-of-cells).  A cell is a `Value` (numeric, i.e.
  float64/int64 dtype, or string, i.e. object dtype).  A column counts as
  numeric exactly when every cell is numeric, matching the homogeneous
  dtypes a DataFrame built from the pydantic `Borrower` records has.
* Python floats are modelled as rationals (ℚ), written with `mkRat` so
  that concrete instances evaluate inside the kernel.
* Python string primitives (`in`, `split`, `strip`, `int(...)`,
  `replace`) are implemented over `List Char`, mirroring their Python
  semantics.
* The trained artifacts loaded at startup (`feature_cols`, the fitted
  scaler's expected column names and per-column affine map, and the
  model's probability function) are opaque external data; they appear as
  parameters of the definitions.
* The routine `ast.literal_eval` applied to a log line's dict part is an external stdlib
  routine; it appears as an oracle parameter `ev : String → Option LogDict`
  (`none` models both a raised exception and a non-dict result, either of
  which the reader's `except` clause skips).
-/

namespace CreditPathAI

/-- Cell of a DataFrame: numeric (float64/int64) or string (object dtype). -/
inductive Value where
  | vNum : ℚ → Value
  | vStr : String → Value
deriving DecidableEq, Repr

/-- A DataFrame column: name and cells. -/
abbrev Col := String × List Value

/-- A DataFrame, column-oriented. -/
abbrev Df := List Col

/-! ### Python string primitives used by the backend -/

/-- Python `sub in s` (substring containment). -/
def containsSub (s pat : String) : Bool :=
  (List.range (s.data.length + 1)).any (fun i => pat.data.isPrefixOf (s.data.drop i))

/-- Split on whitespace runs, dropping empty tokens (helper for
Python `s.split()`); the first argument accumulates the current token in
reverse. -/
def splitWsAux : List Char → List Char → List (List Char)
  | acc, [] => if acc = [] then [] else [acc.reverse]
  | acc, c :: cs =>
      if c.isWhitespace then
        (if acc = [] then id else (acc.reverse :: ·)) (splitWsAux [] cs)
      else splitWsAux (c :: acc) cs

/-- Python `s.split()`: split on whitespace runs, dropping empty tokens. -/
def pySplitWs (s : String) : List String :=
  (splitWsAux [] s.data).map String.mk

/-- Python `s.strip()`: drop whitespace from both ends. -/
def pyStrip (s : String) : String :=
  String.mk (((s.data.dropWhile Char.isWhitespace).reverse.dropWhile
    Char.isWhitespace).reverse)

/-- Value of a nonempty list of decimal digits. -/
def digitsVal (l : List Char) : Nat :=
  l.foldl (fun n c => n * 10 + (c.toNat - 48)) 0

/-- Parse a (stripped) character list the way Python `int` does:
optional sign then nonempty decimal digits. -/
def pyIntChars? : List Char → Option Int
  | '+' :: rest => if rest ≠ [] && rest.all Char.isDigit then
      some (Int.ofNat (digitsVal rest)) else none
  | '-' :: rest => if rest ≠ [] && rest.all Char.isDigit then
      some (-(Int.ofNat (digitsVal rest))) else none
  | l => if l ≠ [] && l.all Char.isDigit then
      some (Int.ofNat (digitsVal l)) else none

/-- Python `int(s)` on a string: optional surrounding whitespace, optional
sign, decimal digits; `none` models a raised `ValueError`. -/
def pyInt? (s : String) : Option Int :=
  pyIntChars? (pyStrip s).data

/-- Python `str(cell)`.  In this API every cell reaching a textual
operation is a string field of the pydantic model; the numeric branch is
present only for totality. -/
def pyStr : Value → String
  | .vStr s => s
  | .vNum q => toString q

/-- Replace every (left-to-right, non-overlapping) occurrence of
`" months"`, with fuel for termination; each step consumes at least one
character, so fuel starting at the list's length is never exhausted. -/
def stripMonthsAux : Nat → List Char → List Char
  | _, [] => []
  | 0, l => l
  | fuel + 1, c :: cs =>
      if (" months".data).isPrefixOf (c :: cs) then
        stripMonthsAux fuel (cs.drop 6)
      else
        c :: stripMonthsAux fuel cs

/-- Python `s.replace(" months", "")` as used on the term column. -/
def stripMonths (s : String) : String :=
  String.mk (stripMonthsAux s.data.length s.data)

/-! ### `clean_emp_length` (backend.py lines 82–90) -/

/-- Function `clean_emp_length` from `preprocess_api_data`: `"<" in x and "1" in x`
gives 0, `"10+" in x` gives 10, otherwise `int(x.split()[0])`, any
exception (no token / unparseable token) giving 0. -/
def clean_emp_length (x : String) : Int :=
  if containsSub x "<" && containsSub x "1" then 0
  else if containsSub x "10+" then 10
  else
    match pySplitWs x with
    | [] => 0
    | t :: _ => (pyInt? t).getD 0

/-! ### Term normalization (backend.py lines 99–105) -/

/-- Conversion `astype(int)` on a column of strings: all cells parse, or the whole
conversion fails. -/
def allInts? : List String → Option (List Int)
  | [] => some []
  | s :: ss =>
      match pyInt? s, allInts? ss with
      | some n, some ns => some (n :: ns)
      | _, _ => none

/-- The term column transform: `astype(str)`, strip `" months"`, then
`try: astype(int) except: pass` — the conversion is column-atomic: it
succeeds only if every stripped cell parses as an integer, otherwise the
whole column stays as the stripped strings. -/
def termNormalize (col : List Value) : List Value :=
  let stripped := col.map (fun v => stripMonths (pyStr v))
  match allInts? stripped with
  | some ns => ns.map (fun n => Value.vNum (n : ℚ))
  | none => stripped.map Value.vStr

/-! ### `map_risk_action` (backend.py lines 129–135) -/

/-- Risk mapping: probability below 0.3 is low risk, below 0.7 medium,
otherwise high, each with its recommended action. -/
def map_risk_action (prob : ℚ) : String × String :=
  if prob < mkRat 3 10 then ("Low risk", "Send reminder")
  else if prob < mkRat 7 10 then ("Medium risk", "Call borrower")
  else ("High risk", "Prioritize collection / restructure loan")

/-! ### `preprocess_api_data` (backend.py lines 81–125)

The pipeline stages, in source order: employment-length cleaning, term
normalization, dropping free-text columns, numeric scaling (silently
skipped unless the numeric columns match the fitted scaler's expected
columns), one-hot expansion, and alignment to the trained column list. -/

/-- A column is numeric (float64/int64 dtype) when every cell is numeric. -/
def isNumericCol (c : Col) : Bool :=
  c.2.all (fun v => match v with | .vNum _ => true | .vStr _ => false)

/-- Names of the numeric columns, in column order
(`df.select_dtypes(include=["float64", "int64"]).columns`). -/
def numericNames (df : Df) : List String :=
  (df.filter isNumericCol).map Prod.fst

/-- Stage `df["emp_length"] = df["emp_length"].apply(clean_emp_length)` when the
column is present (the resulting column has int64 dtype). -/
def applyEmpLength (df : Df) : Df :=
  df.map (fun c =>
    if c.1 = "emp_length" then
      (c.1, c.2.map (fun v => Value.vNum ((clean_emp_length (pyStr v) : ℤ) : ℚ)))
    else c)

/-- The term-normalization stage, applied to the `term` column when present. -/
def applyTermNorm (df : Df) : Df :=
  df.map (fun c => if c.1 = "term" then (c.1, termNormalize c.2) else c)

/-- Stage `df.drop(columns=["address", "emp_title", "title"], errors="ignore")`. -/
def dropTextCols (df : Df) : Df :=
  df.filter (fun c => !(["address", "emp_title", "title"].contains c.1))

/-- The scaling stage: `df[num_cols] = scaler.transform(df[num_cols])`
inside `try/except: pass`.  The fitted scaler raises (and the stage is
skipped, leaving `df` unchanged) unless the numeric column names match
its expected feature names exactly and in order; when they match it
applies its per-column affine map `f`. -/
def scaleStep (scalerNames : List String) (f : String → ℚ → ℚ) (df : Df) : Df :=
  let numCols := numericNames df
  if numCols ≠ [] && numCols = scalerNames then
    df.map (fun c =>
      if isNumericCol c then
        (c.1, c.2.map (fun v => match v with
          | .vNum q => Value.vNum (f c.1 q)
          | .vStr s => Value.vStr s))
      else c)
  else df

/-- Lexicographic strict order on strings (Python `<` on str), via their
character lists. -/
def strLtb : List Char → List Char → Bool
  | [], [] => false
  | [], _ :: _ => true
  | _ :: _, [] => false
  | a :: as, b :: bs => if a < b then true else if b < a then false else strLtb as bs

/-- Insert into a `strLtb`-sorted list of strings. -/
def insertSorted (s : String) : List String → List String
  | [] => [s]
  | t :: ts => if strLtb s.data t.data then s :: t :: ts else t :: insertSorted s ts

/-- Sorted deduplicated list of the values observed in a column
(`pd.get_dummies` emits one indicator per distinct value, in ascending
order). -/
def sortedUniqueValues (cells : List Value) : List String :=
  ((cells.map pyStr).dedup).foldr insertSorted []

/-- The indicator columns `{name}_{value}` produced for one categorical
column. -/
def dummyCols (c : Col) : List Col :=
  (sortedUniqueValues c.2).map (fun v =>
    (c.1 ++ "_" ++ v, c.2.map (fun cell =>
      Value.vNum (if pyStr cell = v then 1 else 0))))

/-- Expansion `pd.get_dummies(df)`: numeric columns pass through first in original
order, then indicator columns grouped by source column. -/
def getDummies (df : Df) : Df :=
  df.filter isNumericCol ++ (df.filter (fun c => !isNumericCol c)).flatMap dummyCols

/-- Number of rows of the frame (length of its first column). -/
def dfRows (df : Df) : Nat :=
  match df with
  | [] => 0
  | c :: _ => c.2.length

/-- Padding `for col in feature_cols: if col not in df.columns: df[col] = 0` —
every trained column absent from the frame is appended, zero-filled. -/
def addMissing (feature_cols : List String) (df : Df) : Df :=
  df ++ (feature_cols.filter (fun col => !(df.any (fun c => c.1 = col)))).map
    (fun col => (col, List.replicate (dfRows df) (Value.vNum 0)))

/-- The cells of the column named `name` (empty when absent; only ever
used after `addMissing` has made the name present). -/
def colValue (df : Df) (name : String) : List Value :=
  ((df.find? (fun c => c.1 = name)).map Prod.snd).getD []

/-- Selection `df = df[feature_cols]`: select exactly the trained columns, in their
trained order, discarding everything else. -/
def selectCols (feature_cols : List String) (df : Df) : Df :=
  feature_cols.map (fun col => (col, colValue df col))

/-- The pipeline up to (and including) one-hot expansion, before schema
alignment. -/
def preAlign (scalerNames : List String) (f : String → ℚ → ℚ) (df : Df) : Df :=
  getDummies (scaleStep scalerNames f (dropTextCols (applyTermNorm (applyEmpLength df))))

/-- Function `preprocess_api_data`: the full preprocessing pipeline, parameterized
by the trained column list and the fitted scaler. -/
def preprocess_api_data (feature_cols scalerNames : List String)
    (f : String → ℚ → ℚ) (df : Df) : Df :=
  selectCols feature_cols (addMissing feature_cols (preAlign scalerNames f df))

/-! ### The `/predict` endpoint (backend.py lines 201–237) -/

/-- A submitted batch as the DataFrame built from the borrowers' dicts;
cells may be null (NaN), which `data.isnull()` detects. -/
abbrev RawDf := List (String × List (Option Value))

/-- Check `data.isnull().sum().sum() > 0`: some cell of some column is null. -/
def hasNull (data : RawDf) : Bool :=
  data.any (fun c => c.2.any (fun v => v.isNone))

/-- A null-free batch as a plain frame (dropping the `Option` layer; on
the branch where it is used no cell is `none`). -/
def denull (data : RawDf) : Df :=
  data.map (fun c => (c.1, c.2.filterMap id))

/-- Round-half-even of `num / den` (`den > 0`), the rounding Python's
`round` applies to the quotient. -/
def roundHalfEvenInt (num den : Int) : Int :=
  let n := Int.fdiv num den
  let rem := num - n * den
  if 2 * rem < den then n
  else if den < 2 * rem then n + 1
  else if 2 ∣ n then n else n + 1

/-- Python `round(p, 3)`: round to 3 decimal places, ties to even. -/
def pyRound3 (q : ℚ) : ℚ :=
  mkRat (roundHalfEvenInt (q.num * 1000) (q.den : Int)) 1000

/-- One entry of the `/predict` response (and of the prediction log):
the rounded probability for display, the tier and action from the
unrounded probability, tagged with the caller identity.  (The response
also echoes the borrower's input record; that echo carries no computed
information and is omitted here.) -/
structure ScoredRow where
  default_probability : ℚ
  risk_level : String
  recommended_action : String
  user_email : String
deriving DecidableEq, Repr

/-- Build one response/log entry from a row's predicted probability
(backend.py lines 217–229). -/
def scoreRow (user_email : String) (prob : ℚ) : ScoredRow :=
  { default_probability := pyRound3 prob
    risk_level := (map_risk_action prob).1
    recommended_action := (map_risk_action prob).2
    user_email := user_email }

/-- Outcome of a `/predict` call: scored results, or an error status and
message. -/
inductive PredictResponse where
  | ok : List ScoredRow → PredictResponse
  | err : Nat → String → PredictResponse
deriving DecidableEq, Repr

/-- The `/predict` handler: reject the whole batch with a 400 when any
cell is null (writing nothing to the log), otherwise preprocess, score
every row with the model's probability function `score`, and append each
result to the prediction log.  Returns the response and the log state. -/
def predict (feature_cols scalerNames : List String) (f : String → ℚ → ℚ)
    (score : Df → List ℚ) (user_email : String) (data : RawDf)
    (log : List ScoredRow) : PredictResponse × List ScoredRow :=
  if hasNull data then
    (.err 400 "Please enter valid data for all fields", log)
  else
    let probs := score (preprocess_api_data feature_cols scalerNames f (denull data))
    let results := probs.map (scoreRow user_email)
    (.ok results, log ++ results)

/-! ### The `/logs` endpoint (backend.py lines 241–278) -/

/-- The dict `ast.literal_eval` yields for a log line; `.get` of an
absent key is `none`. -/
structure LogDict where
  borrower : Option String
  default_probability : Option ℚ
  risk_level : Option String
  recommended_action : Option String
  user_email : Option String
deriving DecidableEq, Repr

/-- A record returned by `/logs`. -/
structure LogRec where
  timestamp : String
  borrower : Option String
  default_probability : Option ℚ
  risk_level : Option String
  recommended_action : Option String
  user_email : Option String
deriving DecidableEq, Repr

/-- Python `s.split(sep, 1)` helper: first occurrence of `sep`, giving
the pieces before and after it. -/
def splitOnceAux (sep : List Char) : List Char → Option (List Char × List Char)
  | [] => none
  | c :: cs =>
      if sep.isPrefixOf (c :: cs) then some ([], (c :: cs).drop sep.length)
      else (splitOnceAux sep cs).map (fun p => (c :: p.1, p.2))

/-- Python `s.split(" - ", 1)`: two parts when the separator occurs,
otherwise the single-element list. -/
def pySplitOnce (sep s : String) : List String :=
  match splitOnceAux sep.data s.data with
  | some (a, b) => [String.mk a, String.mk b]
  | none => [s]

/-- Parse one log line for the given caller (backend.py lines 253–272):
strip, split on `" - "` into timestamp and dict part (skip unless exactly
two parts), evaluate the dict part via the oracle `ev` (skip on
failure), and keep the record only when its `user_email` equals the
caller's identity. -/
def parseLine (ev : String → Option LogDict) (caller : String)
    (line : String) : Option LogRec :=
  match pySplitOnce " - " (pyStrip line) with
  | [ts, dictStr] =>
    match ev (pyStrip dictStr) with
    | none => none
    | some d =>
        if d.user_email = some caller then
          some { timestamp := ts
                 borrower := d.borrower
                 default_probability := d.default_probability
                 risk_level := d.risk_level
                 recommended_action := d.recommended_action
                 user_email := d.user_email }
        else none
  | _ => none

/-- Python `lines[-limit:]` for an `int` limit: the last `limit` lines
when `limit > 0`, the whole list when `limit = 0` (since `-0 = 0`), and
`lines[(-limit):]` when negative. -/
def pyTailSlice (lines : List String) (limit : Int) : List String :=
  if 0 < limit then lines.drop (lines.length - limit.toNat)
  else lines.drop (-limit).toNat

/-- The `/logs` handler on the log file's lines: take the tail slice,
parse each line (skipping malformed ones and other callers' entries),
and return the records newest-first. -/
def get_logs (ev : String → Option LogDict) (caller : String) (limit : Int)
    (lines : List String) : List LogRec :=
  ((pyTailSlice lines limit).filterMap (parseLine ev caller)).reverse

/-! ## Theorems -/

/-- C1: for every probability `p`, the risk mapping returns tier
"Low risk" with action "Send reminder" iff `p < 0.3`, tier "Medium risk"
with action "Call borrower" iff `0.3 ≤ p < 0.7`, and tier "High risk"
with action "Prioritize collection / restructure loan" iff `p ≥ 0.7`;
in particular the boundary 0.3 maps to Medium and 0.7 to High. -/
theorem C1_risk_mapping (p : ℚ) :
    (map_risk_action p = ("Low risk", "Send reminder") ↔ p < mkRat 3 10)
  ∧ (map_risk_action p = ("Medium risk", "Call borrower") ↔
      mkRat 3 10 ≤ p ∧ p < mkRat 7 10)
  ∧ (map_risk_action p = ("High risk", "Prioritize collection / restructure loan") ↔
      mkRat 7 10 ≤ p)
  ∧ map_risk_action (mkRat 3 10) = ("Medium risk", "Call borrower")
  ∧ map_risk_action (mkRat 7 10) =
    ("High risk", "Prioritize collection / restructure loan") := by
  have h37 : (mkRat 3 10 : ℚ) < mkRat 7 10 := by decide
  refine ⟨?_, ?_, ?_, by decide, by decide⟩ <;>
    · unfold map_risk_action
      split_ifs with h1 h2 <;> simp_all <;> linarith

/-- C4: the employment-length normalization maps `"< 1 year"` to 0 and
`"10+ years"` to 10; on any other value (one matching neither special
textual pattern) it returns the integer parsed from the leading
whitespace-separated token, defaulting to 0 when there is no token or it
does not parse — so `"5 years"` gives 5 and unparseable garbage gives 0,
and the function is total (never raises). -/
theorem C4_emp_length :
    clean_emp_length "< 1 year" = 0
  ∧ clean_emp_length "10+ years" = 10
  ∧ clean_emp_length "5 years" = 5
  ∧ clean_emp_length "garbage" = 0
  ∧ (∀ x : String, (containsSub x "<" && containsSub x "1") = false →
      containsSub x "10+" = false →
      clean_emp_length x = (((pySplitWs x).head?.bind pyInt?).getD 0)) := by
  refine ⟨by decide, by decide, by decide, by decide, ?_⟩
  intro x h1 h2
  unfold clean_emp_length
  rw [h1, h2]
  cases pySplitWs x <;> simp

/-- Closed instance of `C4_emp_length`'s guarded clause at `"5 years"`
(parseable leading token) and `"zzz"` (unparseable). -/
theorem C4_emp_length_witness :
    ((containsSub "5 years" "<" && containsSub "5 years" "1") = false
      ∧ containsSub "5 years" "10+" = false
      ∧ clean_emp_length "5 years" =
          (((pySplitWs "5 years").head?.bind pyInt?).getD 0))
  ∧ ((containsSub "zzz" "<" && containsSub "zzz" "1") = false
      ∧ containsSub "zzz" "10+" = false
      ∧ clean_emp_length "zzz" = (((pySplitWs "zzz").head?.bind pyInt?).getD 0)) :=
  ⟨⟨by decide, by decide,
      C4_emp_length.2.2.2.2 "5 years" (by decide) (by decide)⟩,
    ⟨by decide, by decide,
      C4_emp_length.2.2.2.2 "zzz" (by decide) (by decide)⟩⟩

/-- C5: term normalization turns `"36 months"` into the integer 36, and a
term value whose suffix-stripped form does not parse as an integer is
left as that (stripped) string rather than raising an error. -/
theorem C5_term_normalization :
    termNormalize [Value.vStr "36 months"] = [Value.vNum 36]
  ∧ (∀ s : String, pyInt? (stripMonths s) = none →
      termNormalize [Value.vStr s] = [Value.vStr (stripMonths s)]) := by
  refine ⟨by decide, ?_⟩
  intro s h
  unfold termNormalize
  simp [pyStr, allInts?, h]

/-- Closed instance of `C5_term_normalization` at the unparseable value
`"N/A"` (which contains no `" months"` suffix, so it is returned
verbatim). -/
theorem C5_term_normalization_witness :
    pyInt? (stripMonths "N/A") = none
  ∧ termNormalize [Value.vStr "N/A"] = [Value.vStr "N/A"] :=
  ⟨by decide,
    (C5_term_normalization.2 "N/A" (by decide)).trans (by decide)⟩

/-- If some cell of a string column fails integer parsing, the whole
column conversion fails. -/
theorem allInts_none_of_mem :
    ∀ l : List String, (∃ a ∈ l, pyInt? a = none) → allInts? l = none := by
  intro l h
  obtain ⟨a, ha, hfa⟩ := h
  induction l with
  | nil => cases ha
  | cons x xs ih =>
    rcases List.mem_cons.mp ha with rfl | hmem
    · simp [allInts?, hfa]
    · cases hfx : pyInt? x <;> simp [allInts?, hfx, ih hmem]

/-- C9: the term conversion is column-atomic — if any suffix-stripped
term value in the batch fails integer conversion, every term value in
the batch (including otherwise-convertible ones) remains a
suffix-stripped string. -/
theorem C9_term_atomic (col : List Value)
    (h : ∃ v ∈ col, pyInt? (stripMonths (pyStr v)) = none) :
    termNormalize col = col.map (fun v => Value.vStr (stripMonths (pyStr v))) := by
  unfold termNormalize
  have hnone : allInts? (col.map (fun v => stripMonths (pyStr v))) = none := by
    apply allInts_none_of_mem
    obtain ⟨v, hv, hfv⟩ := h
    exact ⟨stripMonths (pyStr v), List.mem_map_of_mem _ hv, hfv⟩
  simp [hnone]

/-- Closed instance of `C9_term_atomic`: a batch holding `"36 months"`
and the unconvertible `"bad"` keeps even `"36 months"` as the string
`"36"`. -/
theorem C9_term_atomic_witness :
    (∃ v ∈ [Value.vStr "36 months", Value.vStr "bad"],
        pyInt? (stripMonths (pyStr v)) = none)
  ∧ termNormalize [Value.vStr "36 months", Value.vStr "bad"] =
      [Value.vStr "36", Value.vStr "bad"] :=
  ⟨⟨Value.vStr "bad", by decide, by decide⟩,
    (C9_term_atomic [Value.vStr "36 months", Value.vStr "bad"]
      ⟨Value.vStr "bad", by decide, by decide⟩).trans (by decide)⟩

/-- Selecting the trained columns yields exactly the trained column
names, in their trained order. -/
theorem selectCols_map_fst (fc : List String) (df : Df) :
    (selectCols fc df).map Prod.fst = fc := by
  have hcomp : (Prod.fst ∘ fun col : String => (col, colValue df col)) = id := by
    funext col
    rfl
  simp [selectCols, List.map_map, hcomp]

/-- Selecting by the trained column list preserves the cells of every
selected column. -/
theorem colValue_selectCols (fc : List String) (df : Df) {c : String}
    (hc : c ∈ fc) : colValue (selectCols fc df) c = colValue df c := by
  induction fc with
  | nil => cases hc
  | cons t ts ih =>
    by_cases htc : t = c
    · subst htc
      unfold selectCols colValue
      rw [List.map_cons, List.find?_cons_of_pos _ (by simp)]
      rfl
    · have hmem : c ∈ ts := by
        rcases List.mem_cons.mp hc with rfl | hmem
        · exact absurd rfl htc
        · exact hmem
      have hih := ih hmem
      unfold selectCols colValue at hih ⊢
      rw [List.map_cons, List.find?_cons_of_neg _ (by simp [htc])]
      exact hih

/-- Padding with the trained columns leaves a present column's cells
unchanged and fills an absent one with zeroes (one per row). -/
theorem colValue_addMissing (fc : List String) (df : Df) {c : String}
    (hc : c ∈ fc) :
    colValue (addMissing fc df) c =
      if df.any (fun p => p.1 = c) then colValue df c
      else List.replicate (dfRows df) (Value.vNum 0) := by
  unfold addMissing colValue
  rw [List.find?_append]
  by_cases hany : df.any (fun p => p.1 = c) = true
  · obtain ⟨x, hxmem, hpx⟩ := List.any_eq_true.mp hany
    have hsome : (df.find? (fun p => p.1 = c)).isSome :=
      List.find?_isSome.mpr ⟨x, hxmem, hpx⟩
    obtain ⟨y, hy⟩ := Option.isSome_iff_exists.mp hsome
    rw [hy]
    simp [hany]
  · have hnone : df.find? (fun p => p.1 = c) = none := by
      rw [List.find?_eq_none]
      intro x hx hpx
      exact hany (List.any_eq_true.mpr ⟨x, hx, hpx⟩)
    have hfalse : df.any (fun p => p.1 = c) = false := (Bool.not_eq_true _) ▸ hany
    have hmemf : c ∈ fc.filter (fun col => !(df.any (fun p => p.1 = col))) :=
      List.mem_filter.mpr ⟨hc, by rw [hfalse]; rfl⟩
    have hs : ((fc.filter (fun col => !(df.any (fun p => p.1 = col)))).find?
        (fun col => col = c)).isSome :=
      List.find?_isSome.mpr ⟨c, hmemf, by simp⟩
    obtain ⟨y, hy⟩ := Option.isSome_iff_exists.mp hs
    have hyc : y = c := by simpa using List.find?_some hy
    rw [hyc] at hy
    rw [hnone, Option.none_or, List.find?_map]
    have hcomp : ((fun p : Col => decide (p.1 = c)) ∘
        (fun col => (col, List.replicate (dfRows df) (Value.vNum 0)))) =
        (fun col => decide (col = c)) := rfl
    rw [hcomp, hy]
    simp [hany]

/-- C2: for every input batch, the preprocessed feature table has exactly
the fixed trained column list, in that order; each trained column keeps
its one-hot-expanded cells when present and is zero-filled when absent,
and every extra expanded column is discarded. -/
theorem C2_schema_alignment (fc sn : List String) (f : String → ℚ → ℚ) (df : Df) :
    (preprocess_api_data fc sn f df).map Prod.fst = fc
  ∧ ∀ c ∈ fc, colValue (preprocess_api_data fc sn f df) c =
      if (preAlign sn f df).any (fun p => p.1 = c) then
        colValue (preAlign sn f df) c
      else List.replicate (dfRows (preAlign sn f df)) (Value.vNum 0) := by
  constructor
  · exact selectCols_map_fst fc _
  · intro c hc
    unfold preprocess_api_data
    rw [colValue_selectCols fc _ hc, colValue_addMissing fc _ hc]

/-- Closed instance of `C2_schema_alignment`: a trained column absent
from the expanded batch (here `"zz"`) comes out zero-filled. -/
theorem C2_schema_alignment_witness :
    ("zz" ∈ ["g_x", "zz"])
  ∧ colValue (preprocess_api_data ["g_x", "zz"] [] (fun _ q => q)
      [("g", [Value.vStr "x"])]) "zz" = [Value.vNum 0]
  ∧ (preprocess_api_data ["g_x", "zz"] [] (fun _ q => q)
      [("g", [Value.vStr "x"])]).map Prod.fst = ["g_x", "zz"] :=
  ⟨by decide,
    ((C2_schema_alignment ["g_x", "zz"] [] (fun _ q => q)
      [("g", [Value.vStr "x"])]).2 "zz" (by decide)).trans (by decide),
    (C2_schema_alignment ["g_x", "zz"] [] (fun _ q => q)
      [("g", [Value.vStr "x"])]).1⟩

/-- C6: when the batch's numeric columns do not match the fitted scaler's
expected columns, the scaling stage raises nothing and is skipped for the
whole batch (the frame is unchanged by it), and preprocessing still
completes with the full trained schema — the batch is still scored. -/
theorem C6_scaler_mismatch_skipped (fc sn : List String) (f : String → ℚ → ℚ)
    (df : Df)
    (h : numericNames (dropTextCols (applyTermNorm (applyEmpLength df))) ≠ sn) :
    scaleStep sn f (dropTextCols (applyTermNorm (applyEmpLength df))) =
      dropTextCols (applyTermNorm (applyEmpLength df))
  ∧ preprocess_api_data fc sn f df =
      selectCols fc (addMissing fc
        (getDummies (dropTextCols (applyTermNorm (applyEmpLength df)))))
  ∧ (preprocess_api_data fc sn f df).map Prod.fst = fc := by
  have hs : scaleStep sn f (dropTextCols (applyTermNorm (applyEmpLength df))) =
      dropTextCols (applyTermNorm (applyEmpLength df)) := by
    unfold scaleStep
    simp [h]
  refine ⟨hs, ?_, selectCols_map_fst fc _⟩
  unfold preprocess_api_data preAlign
  rw [hs]

/-- Closed instance of `C6_scaler_mismatch_skipped`: a numeric column
(`loan_amnt`, value 5) passes through unscaled — even though the scaler
map is `q + 1` — because the scaler expects different columns, and the
batch is still fully preprocessed. -/
theorem C6_scaler_mismatch_skipped_witness :
    numericNames (dropTextCols (applyTermNorm (applyEmpLength
      [("loan_amnt", [Value.vNum 5]), ("g", [Value.vStr "x"])]))) ≠ ["other"]
  ∧ preprocess_api_data ["loan_amnt", "g_x"] ["other"] (fun _ q => q + 1)
      [("loan_amnt", [Value.vNum 5]), ("g", [Value.vStr "x"])] =
      [("loan_amnt", [Value.vNum 5]), ("g_x", [Value.vNum 1])] :=
  ⟨by decide,
    ((C6_scaler_mismatch_skipped ["loan_amnt", "g_x"] ["other"] (fun _ q => q + 1)
      [("loan_amnt", [Value.vNum 5]), ("g", [Value.vStr "x"])]
      (by decide)).2.1).trans (by decide)⟩

/-- C3: a submitted batch containing a null/missing field anywhere is
rejected whole with the specific validation message, yields no scoring
output at all, and leaves the prediction log untouched. -/
theorem C3_null_batch_rejected (fc sn : List String) (f : String → ℚ → ℚ)
    (score : Df → List ℚ) (email : String) (data : RawDf)
    (log : List ScoredRow) (h : hasNull data = true) :
    predict fc sn f score email data log =
      (.err 400 "Please enter valid data for all fields", log) := by
  simp [predict, h]

/-- Closed instance of `C3_null_batch_rejected`: one null `loan_amnt`
cell rejects the batch and writes nothing to the (empty) log. -/
theorem C3_null_batch_rejected_witness :
    hasNull [("loan_amnt", [none]), ("term", [some (Value.vStr "36 months")])] = true
  ∧ predict ["loan_amnt"] [] (fun _ q => q) (fun _ => [mkRat 1 2]) "guest"
      [("loan_amnt", [none]), ("term", [some (Value.vStr "36 months")])] [] =
      (.err 400 "Please enter valid data for all fields", []) :=
  ⟨by decide,
    C3_null_batch_rejected ["loan_amnt"] [] (fun _ q => q) (fun _ => [mkRat 1 2])
      "guest" [("loan_amnt", [none]), ("term", [some (Value.vStr "36 months")])]
      [] (by decide)⟩

/-- C7: a scored row's tier and action come from the unrounded
probability while its displayed `default_probability` is the probability
rounded to 3 decimal places; at p = 0.6996 (which rounds to 0.700) the
reported tier is Medium — the tier of the unrounded value — although the
rounded display value 0.700 would map to High. -/
theorem C7_tier_from_unrounded (email : String) (p : ℚ) :
    ((scoreRow email p).risk_level = (map_risk_action p).1
      ∧ (scoreRow email p).recommended_action = (map_risk_action p).2
      ∧ (scoreRow email p).default_probability = pyRound3 p)
  ∧ (scoreRow "guest" (mkRat 6996 10000)).risk_level = "Medium risk"
  ∧ pyRound3 (mkRat 6996 10000) = mkRat 700 1000
  ∧ (map_risk_action (mkRat 700 1000)).1 = "High risk"
  ∧ (scoreRow "guest" (mkRat 6996 10000)).risk_level ≠
      (map_risk_action ((scoreRow "guest" (mkRat 6996 10000)).default_probability)).1 :=
  ⟨⟨rfl, rfl, rfl⟩, by decide, by decide, by decide, by decide⟩

/-- A line the parser accepts was filtered on the caller's identity, so
its record carries exactly that identity. -/
theorem parseLine_user_email {ev : String → Option LogDict} {caller line : String}
    {r : LogRec} (h : parseLine ev caller line = some r) :
    r.user_email = some caller := by
  unfold parseLine at h
  split at h
  · split at h
    · exact absurd h (by simp)
    · split at h
      · rename_i d hd hcond
        cases h
        simpa using hcond
      · exact absurd h (by simp)
  · exact absurd h (by simp)

/-- The tail slice is the whole file when there are at most `limit`
lines (`limit > 0`). -/
theorem pyTailSlice_of_le {lines : List String} {limit : Int}
    (hpos : 0 < limit) (hlen : lines.length ≤ limit.toNat) :
    pyTailSlice lines limit = lines := by
  unfold pyTailSlice
  rw [if_pos hpos]
  have : lines.length - limit.toNat = 0 := by omega
  rw [this, List.drop_zero]

/-- C8: reading logs with the default limit of 100 returns at most 100
parsed entries, every returned entry carries the requesting caller's
identity, and a malformed line (one the parser rejects) is skipped
without affecting the other lines' records (stated over files that fit
in the 100-line window, where the tail slice is the whole file). -/
theorem C8_get_logs_bounded (ev : String → Option LogDict) (caller : String)
    (lines : List String) :
    (get_logs ev caller 100 lines).length ≤ 100
  ∧ (∀ r ∈ get_logs ev caller 100 lines, r.user_email = some caller)
  ∧ (∀ pre post : List String, ∀ bad : String,
      (pre ++ bad :: post).length ≤ 100 →
      parseLine ev caller bad = none →
      get_logs ev caller 100 (pre ++ bad :: post) =
        get_logs ev caller 100 (pre ++ post)) := by
  refine ⟨?_, ?_, ?_⟩
  · unfold get_logs pyTailSlice
    rw [if_pos (by norm_num)]
    calc (((lines.drop (lines.length - (100 : Int).toNat)).filterMap
            (parseLine ev caller)).reverse).length
        ≤ (lines.drop (lines.length - (100 : Int).toNat)).length := by
          rw [List.length_reverse]
          exact List.length_filterMap_le _ _
      _ ≤ 100 := by
          rw [List.length_drop]
          omega
  · intro r hr
    rw [get_logs, List.mem_reverse, List.mem_filterMap] at hr
    obtain ⟨line, _, hparse⟩ := hr
    exact parseLine_user_email hparse
  · intro pre post bad hlen hbad
    unfold get_logs
    rw [pyTailSlice_of_le (by norm_num) (by simpa using hlen),
      pyTailSlice_of_le (by norm_num) (by simp at hlen ⊢; omega),
      List.filterMap_append, List.filterMap_append, List.filterMap_cons, hbad]

/-- Concrete oracle for the `/logs` witnesses: only the dict text `"D"`
parses, to a record owned by `"guest"`. -/
def evOracle : String → Option LogDict := fun s =>
  if s = "D" then some ⟨none, none, none, none, some "guest"⟩ else none

/-- Closed instance of `C8_get_logs_bounded`: on a three-line file whose
middle line is malformed, the read returns the two well-formed entries
(both the caller's), within the 100 bound, and dropping the malformed
line does not change the result. -/
theorem C8_get_logs_bounded_witness :
    (get_logs evOracle "guest" 100 ["t - D", "malformed", "t2 - D"]).length ≤ 100
  ∧ ((⟨"t2", none, none, none, none, some "guest"⟩ : LogRec) ∈
      get_logs evOracle "guest" 100 ["t - D", "malformed", "t2 - D"]
      ∧ (⟨"t2", none, none, none, none, some "guest"⟩ : LogRec).user_email =
        some "guest")
  ∧ ((["t - D"] ++ "malformed" :: ["t2 - D"]).length ≤ 100
      ∧ parseLine evOracle "guest" "malformed" = none
      ∧ get_logs evOracle "guest" 100 (["t - D"] ++ "malformed" :: ["t2 - D"]) =
          get_logs evOracle "guest" 100 (["t - D"] ++ ["t2 - D"])) :=
  ⟨(C8_get_logs_bounded evOracle "guest" ["t - D", "malformed", "t2 - D"]).1,
    ⟨by decide,
      (C8_get_logs_bounded evOracle "guest" ["t - D", "malformed", "t2 - D"]).2.1
        ⟨"t2", none, none, none, none, some "guest"⟩ (by decide)⟩,
    ⟨by decide, by decide,
      (C8_get_logs_bounded evOracle "guest" []).2.2 ["t - D"] ["t2 - D"]
        "malformed" (by decide) (by decide)⟩⟩

/-- Second concrete oracle, for the C10 witness (kept separate so the
two claims share no named witnesses' ingredients by accident). -/
def evOracleB : String → Option LogDict := fun s =>
  if s = "D" then some ⟨none, none, none, none, some "guest"⟩ else none

/-- C10: with `limit = 0` the tail slice `lines[-0:]` is the entire file,
so the `/logs` response is every matching entry in the file (shown to
exceed 0 entries on a concrete file); the at-most-`limit` bound holds
only for `limit > 0`. -/
theorem C10_limit_zero_whole_file (ev : String → Option LogDict)
    (caller : String) (lines : List String) :
    pyTailSlice lines 0 = lines
  ∧ get_logs ev caller 0 lines = (lines.filterMap (parseLine ev caller)).reverse
  ∧ (∀ limit : Int, 0 < limit →
      (get_logs ev caller limit lines).length ≤ limit.toNat)
  ∧ 1 ≤ (get_logs evOracleB "guest" 0 ["t - D"]).length := by
  have hslice : pyTailSlice lines 0 = lines := by
    unfold pyTailSlice
    rw [if_neg (by norm_num)]
    rfl
  refine ⟨hslice, ?_, ?_, by decide⟩
  · unfold get_logs
    rw [hslice]
  · intro limit hpos
    unfold get_logs pyTailSlice
    rw [if_pos hpos]
    calc (((lines.drop (lines.length - limit.toNat)).filterMap
            (parseLine ev caller)).reverse).length
        ≤ (lines.drop (lines.length - limit.toNat)).length := by
          rw [List.length_reverse]
          exact List.length_filterMap_le _ _
      _ ≤ limit.toNat := by
          rw [List.length_drop]
          omega

/-- Closed instance of `C10_limit_zero_whole_file`: at `limit = 0` a
one-line file yields one entry (more than 0), and at `limit = 5` the
bound 5 holds. -/
theorem C10_limit_zero_whole_file_witness :
    pyTailSlice ["t - D"] 0 = ["t - D"]
  ∧ get_logs evOracleB "guest" 0 ["t - D"] =
      [⟨"t", none, none, none, none, some "guest"⟩]
  ∧ ((0 : Int) < 5
      ∧ (get_logs evOracleB "guest" 5 ["t - D"]).length ≤ (5 : Int).toNat) :=
  ⟨(C10_limit_zero_whole_file evOracleB "guest" ["t - D"]).1,
    ((C10_limit_zero_whole_file evOracleB "guest" ["t - D"]).2.1).trans (by decide),
    ⟨by decide,
      (C10_limit_zero_whole_file evOracleB "guest" ["t - D"]).2.2.1 5 (by decide)⟩⟩

end CreditPathAI
